import Mathlib

/-!
Shallow embedding of `Instruments_Valon/__init__.py` (module-level `synth`
dictionary and the classes `Valon5007`, `Valon1`, `Valon2`).

Modelling conventions:
* Python dictionaries become association lists with Python assignment
  semantics (`dinsert`: replace in place if the key is present, else append).
* The vendor SDK (`valon_synth`) is an opaque environment `Env`: one pure
  function per vendor get task, one per vendor set task (which may either
  raise, modelled `Except.error ()`, or return a success boolean), and the
  key list of the vendor RF-level table `rfl_rev_table`.
* Parameter values (frequencies, labels, lock flags, ...) are abstracted to
  `Int`; RF levels are integers (dBm) in the real table as well.
* Exceptions are an explicit error type `Err`; every operation returns
  `Except (Err × VState) (α × VState)` where the error also carries the
  state at the moment of the raise, so that mutation-before-raise is
  observable.
* Keyword arguments (`**kwargs`) are always forwarded unchanged by the code
  and are not modelled separately; positional arguments are a `List Value`.
* `time.sleep(0.1)` has no observable effect in the embedding.
-/

namespace Valon

/-- Parameter values exchanged with the vendor SDK, abstracted to `Int`. -/
abbrev Value := Int

/-- The two vendor channel constants `valon_synth.SYNTH_A` / `SYNTH_B`. -/
inductive VChan where
  | SYNTH_A
  | SYNTH_B
deriving DecidableEq, Repr

/-- Dictionary lookup `d[k]` returning `none` where Python raises `KeyError`. -/
def dlookup {α β : Type} [DecidableEq α] : List (α × β) → α → Option β
  | [], _ => none
  | (k, v) :: rest, a => if k = a then some v else dlookup rest a

/-- Dictionary assignment `d[k] = v`: replace in place if present, else append. -/
def dinsert {α β : Type} [DecidableEq α] : List (α × β) → α → β → List (α × β)
  | [], a, b => [(a, b)]
  | (k, v) :: rest, a, b =>
      if k = a then (k, b) :: rest else (k, v) :: dinsert rest a b

/-- The module-level dictionary `synth = {1: SYNTH_A, 2: SYNTH_B}`. -/
def synth : List (Nat × VChan) := [(1, VChan.SYNTH_A), (2, VChan.SYNTH_B)]

/-- The vendor SDK `valon_synth.Synthesizer`, as an opaque environment:
its get methods, its set methods (which may raise or return a success flag)
and the keys of its RF-level table `rfl_rev_table`. -/
structure Env where
  get_frequency : VChan → Value
  get_rf_level : VChan → Value
  get_phase_lock : VChan → Value
  get_label : VChan → Value
  get_vco_range : VChan → Value
  get_options : VChan → Value
  set_frequency : VChan → List Value → Except Unit Bool
  set_rf_level : VChan → List Value → Except Unit Bool
  set_label : VChan → List Value → Except Unit Bool
  set_vco_range : VChan → List Value → Except Unit Bool
  set_options : VChan → List Value → Except Unit Bool
  rfl_rev_table_keys : List Value

/-- The dictionary `self.__get_tasks__` built by `Valon5007.__init__`,
in its insertion order. -/
def getTasks (env : Env) : List (String × (VChan → Value)) :=
  [("frequency", env.get_frequency),
   ("rf_level", env.get_rf_level),
   ("phase lock", env.get_phase_lock),
   ("label", env.get_label),
   ("VCO range", env.get_vco_range),
   ("options", env.get_options)]

/-- The dictionary `self.__set_tasks__` built by `Valon5007.__init__`,
in its insertion order.  Note: no `"phase lock"` entry. -/
def setTasks (env : Env) : List (String × (VChan → List Value → Except Unit Bool)) :=
  [("frequency", env.set_frequency),
   ("rf_level", env.set_rf_level),
   ("label", env.set_label),
   ("VCO range", env.set_vco_range),
   ("options", env.set_options)]

/-- The key set of `__get_tasks__`. -/
def getTaskKeys : List String :=
  ["frequency", "rf_level", "phase lock", "label", "VCO range", "options"]

/-- The key set of `__set_tasks__`. -/
def setTaskKeys : List String :=
  ["frequency", "rf_level", "label", "VCO range", "options"]

/-- The Python exceptions that can escape the embedded operations. -/
inductive Err where
  | keyError
  | indexError
  | exnSetFailed (param : String)
  | obsSettingFailed (param : String)
deriving DecidableEq, Repr

/-- The mutable state of a `Valon5007` object that the claims concern:
the cache `self.status`, a dict from channel number to a dict from
parameter name to last value. -/
structure VState where
  status : List (Nat × List (String × Value))
deriving DecidableEq, Repr

/-- Result of an embedded method: either a raised exception together with
the object state at the moment of the raise, or a return value and state. -/
abbrev Result (α : Type) := Except (Err × VState) (α × VState)

/-- The state an operation leaves behind, whether it returned or raised. -/
def outState {α : Type} : Result α → VState
  | .error (_, st) => st
  | .ok (_, st) => st

/-- Cache lookup `self.status[synth_id][param]` as a partial read. -/
def statusLookup (st : VState) (synth_id : Nat) (param : String) : Option Value :=
  (dlookup st.status synth_id).bind (fun d => dlookup d param)

namespace Valon5007

/-- Method `Valon5007.get_p(param, synth_id)`: resolve the channel, dispatch to the
vendor get task, store the fresh value in `self.status[synth_id][param]`
and return it. -/
def get_p (env : Env) (st : VState) (param : String) (synth_id : Nat) :
    Result Value :=
  match dlookup synth synth_id with
  | none => .error (.keyError, st)
  | some s =>
    match dlookup (getTasks env) param with
    | none => .error (.keyError, st)
    | some task =>
      match dlookup st.status synth_id with
      | none => .error (.keyError, st)
      | some d =>
        let v := task s
        .ok (v, ⟨dinsert st.status synth_id (dinsert d param v)⟩)

/-- Modelled from the spec: `nearest_index` is imported from the external
`Data_Reduction` package, which is not part of this repository.  Per the
spec it looks up the index of the list element nearest to the given value
("look up nearest table key"); ties prefer the earlier element. -/
def nearest_index : List Int → Int → Nat
  | [], _ => 0
  | [_], _ => 0
  | x :: y :: rest, v =>
    let j := nearest_index (y :: rest) v
    if (x - v).natAbs ≤ ((y :: rest).getD j 0 - v).natAbs then 0 else j + 1

/-- The `rf_level` argument correction block at the head of
`Valon5007.set_p`: sort the keys of the vendor table `rfl_rev_table` and
replace the requested level by the nearest key; all other parameters keep
their arguments untouched.  `Except.error .indexError` marks the Python
`IndexError` on `args[0]` / `pkeys[best_key]` when the respective list is
empty. -/
def corrected_args (env : Env) (param : String) (args : List Value) :
    Except Err (List Value) :=
  if param = "rf_level" then
    let pkeys := env.rfl_rev_table_keys.insertionSort (· ≤ ·)
    match args with
    | [] => .error .indexError
    | a :: _ =>
      let best_key := nearest_index pkeys a
      match pkeys.get? best_key with
      | none => .error .indexError
      | some k => .ok [k]
  else .ok args

/-- The `try` block and its `else` clause in `Valon5007.set_p`, applied to
the (possibly corrected) arguments: dispatch to the vendor set task
(a `KeyError` on the `__set_tasks__` lookup or any exception from the task
is caught and re-raised as `Exception(param, "set failed")`); on a truthy
success flag re-read the parameter, cache it and return it; on a falsy
flag raise `ObservatoryError(param, "setting failed")`. -/
def setp_after (env : Env) (st : VState) (param : String) (synth_id : Nat)
    (s : VChan) (args : List Value) : Result Value :=
  match dlookup (setTasks env) param with
  | none => .error (.exnSetFailed param, st)
  | some task =>
    match task s args with
    | .error _ => .error (.exnSetFailed param, st)
    | .ok success =>
      if success then
        match dlookup (getTasks env) param with
        | none => .error (.keyError, st)
        | some gtask =>
          match dlookup st.status synth_id with
          | none => .error (.keyError, st)
          | some d =>
            let v := gtask s
            .ok (v, ⟨dinsert st.status synth_id (dinsert d param v)⟩)
      else .error (.obsSettingFailed param, st)

/-- Method `Valon5007.set_p(param, synth_id, *args)`: resolve the channel (before
the `try` block), apply the RF-level nearest-key correction, then run the
dispatch/re-read logic. -/
def set_p (env : Env) (st : VState) (param : String) (synth_id : Nat)
    (args : List Value) : Result Value :=
  match dlookup synth synth_id with
  | none => .error (.keyError, st)
  | some s =>
    match corrected_args env param args with
    | .error e => .error (e, st)
    | .ok args2 => setp_after env st param synth_id s args2

/-- The loop body of `Valon5007.update_synth_status`: call `get_p` for each
key of `__get_tasks__` in turn, threading the state. -/
def runGetAll (env : Env) (st : VState) (keys : List String) (synth_id : Nat) :
    Except (Err × VState) VState :=
  match keys with
  | [] => .ok st
  | k :: ks =>
    match get_p env st k synth_id with
    | .error es => .error es
    | .ok (_, st2) => runGetAll env st2 ks synth_id

/-- Method `Valon5007.update_synth_status(synth_id)`: refresh every parameter of
the channel and return `self.status[synth_id]`. -/
def update_synth_status (env : Env) (st : VState) (synth_id : Nat) :
    Except (Err × VState) (List (String × Value) × VState) :=
  match runGetAll env st getTaskKeys synth_id with
  | .error es => .error es
  | .ok st2 =>
    match dlookup st2.status synth_id with
    | none => .error (.keyError, st2)
    | some d => .ok (d, st2)

/-- The cache as first assigned in `__init__`: `self.status = {1:{}, 2:{}}`. -/
def init_status : VState := ⟨[(1, []), (2, [])]⟩

/-- The state-relevant tail of `Valon5007.__init__`: build the empty cache,
then `update_synth_status` for channels 1 and 2. -/
def initState (env : Env) : Except (Err × VState) VState :=
  match update_synth_status env init_status 1 with
  | .error es => .error es
  | .ok (_, st1) =>
    match update_synth_status env st1 2 with
    | .error es => .error es
    | .ok (_, st2) => .ok st2

end Valon5007

namespace Valon1

/-- Method `Valon1.get_p(param)`: delegate to the hardware object with channel 1. -/
def get_p (env : Env) (st : VState) (param : String) : Result Value :=
  Valon5007.get_p env st param 1

/-- Method `Valon1.set_p(param, *args)`: delegate with channel 1. -/
def set_p (env : Env) (st : VState) (param : String) (args : List Value) :
    Result Value :=
  Valon5007.set_p env st param 1 args

/-- Method `Valon1.update_synth_status()`: delegate with channel 1. -/
def update_synth_status (env : Env) (st : VState) :
    Except (Err × VState) (List (String × Value) × VState) :=
  Valon5007.update_synth_status env st 1

end Valon1

namespace Valon2

/-- Method `Valon2.get_p(param)`: delegate to the hardware object with channel 2. -/
def get_p (env : Env) (st : VState) (param : String) : Result Value :=
  Valon5007.get_p env st param 2

/-- Method `Valon2.set_p(param, *args)`: delegate with channel 2. -/
def set_p (env : Env) (st : VState) (param : String) (args : List Value) :
    Result Value :=
  Valon5007.set_p env st param 2 args

/-- Method `Valon2.update_synth_status()`: delegate with channel 2. -/
def update_synth_status (env : Env) (st : VState) :
    Except (Err × VState) (List (String × Value) × VState) :=
  Valon5007.update_synth_status env st 2

end Valon2

/-- A concrete sample environment used to instantiate theorems: every
vendor get task returns 0, every vendor set task succeeds, and the RF-level
table has the four keys of the physical device (-4, -1, 2, 5 dBm). -/
def envDefault : Env where
  get_frequency := fun _ => 0
  get_rf_level := fun _ => 0
  get_phase_lock := fun _ => 0
  get_label := fun _ => 0
  get_vco_range := fun _ => 0
  get_options := fun _ => 0
  set_frequency := fun _ _ => .ok true
  set_rf_level := fun _ _ => .ok true
  set_label := fun _ _ => .ok true
  set_vco_range := fun _ _ => .ok true
  set_options := fun _ _ => .ok true
  rfl_rev_table_keys := [-4, -1, 2, 5]

/-- A sample environment whose `set_frequency` reports failure (falsy). -/
def envSetFalse : Env :=
  { envDefault with set_frequency := fun _ _ => .ok false }

/-- A sample environment whose `set_frequency` raises. -/
def envSetRaise : Env :=
  { envDefault with set_frequency := fun _ _ => .error () }

/-- The state left behind by the `update_synth_status` loop body, whether
it returned or raised. -/
def outStateV : Except (Err × VState) VState → VState
  | .error (_, st) => st
  | .ok st => st

/-- The cache-shape invariant: `status` has exactly the channel keys 1 and
2 (in insertion order), and every parameter key stored under either
channel is a key of `__get_tasks__`. -/
def statusInv (st : VState) : Prop :=
  st.status.map Prod.fst = [1, 2] ∧
  ∀ e ∈ st.status, ∀ p ∈ e.2.map Prod.fst, p ∈ getTaskKeys

/-- Full coverage: every channel dict of `status` has an entry for every
key of `__get_tasks__`. -/
def fullStatus (st : VState) : Prop :=
  ∀ e ∈ st.status, ∀ p ∈ getTaskKeys, (dlookup e.2 p).isSome

/-! ### Dictionary lemmas -/

theorem dlookup_dinsert_self {α β : Type} [DecidableEq α] (l : List (α × β))
    (a : α) (b : β) : dlookup (dinsert l a b) a = some b := by
  induction l with
  | nil => simp [dinsert, dlookup]
  | cons hd tl ih =>
    obtain ⟨k, v⟩ := hd
    by_cases h : k = a
    · simp [dinsert, dlookup, h]
    · simp [dinsert, dlookup, h, ih]

theorem dlookup_dinsert_ne {α β : Type} [DecidableEq α] (l : List (α × β))
    (a c : α) (b : β) (h : c ≠ a) :
    dlookup (dinsert l a b) c = dlookup l c := by
  induction l with
  | nil => simp [dinsert, dlookup, Ne.symm h]
  | cons hd tl ih =>
    obtain ⟨k, v⟩ := hd
    by_cases hk : k = a
    · subst hk
      simp [dinsert, dlookup, Ne.symm h]
    · simp [dinsert, dlookup, hk, ih]

theorem mem_fst_of_dlookup {α β : Type} [DecidableEq α] {l : List (α × β)}
    {a : α} {b : β} (h : dlookup l a = some b) : a ∈ l.map Prod.fst := by
  induction l with
  | nil => simp [dlookup] at h
  | cons hd tl ih =>
    obtain ⟨k, v⟩ := hd
    by_cases hk : k = a
    · subst hk
      exact List.mem_cons_self _ _
    · simp only [dlookup] at h
      rw [if_neg hk] at h
      exact List.mem_cons_of_mem k (ih h)

theorem dlookup_isSome_of_mem_fst {α β : Type} [DecidableEq α]
    {l : List (α × β)} {a : α} (h : a ∈ l.map Prod.fst) :
    (dlookup l a).isSome := by
  induction l with
  | nil => simp at h
  | cons hd tl ih =>
    obtain ⟨k, v⟩ := hd
    by_cases hk : k = a
    · simp [dlookup, hk]
    · simp only [List.map_cons] at h
      rcases List.mem_cons.mp h with h | h
      · exact absurd h.symm hk
      · simp only [dlookup]
        rw [if_neg hk]
        exact ih h

theorem pair_mem_of_dlookup {α β : Type} [DecidableEq α] {l : List (α × β)}
    {a : α} {b : β} (h : dlookup l a = some b) : (a, b) ∈ l := by
  induction l with
  | nil => simp [dlookup] at h
  | cons hd tl ih =>
    obtain ⟨k, v⟩ := hd
    by_cases hk : k = a
    · subst hk
      simp [dlookup] at h
      simp [h]
    · simp [dlookup, hk] at h
      simp [ih h]

theorem map_fst_dinsert_of_mem {α β : Type} [DecidableEq α]
    {l : List (α × β)} {a : α} (b : β) (h : a ∈ l.map Prod.fst) :
    (dinsert l a b).map Prod.fst = l.map Prod.fst := by
  induction l with
  | nil => simp at h
  | cons hd tl ih =>
    obtain ⟨k, v⟩ := hd
    by_cases hk : k = a
    · simp [dinsert, hk]
    · simp only [List.map_cons] at h
      rcases List.mem_cons.mp h with h | h
      · exact absurd h.symm hk
      · simp [dinsert, hk, ih h]

theorem mem_dinsert {α β : Type} [DecidableEq α] {l : List (α × β)}
    {a : α} {b : β} {e : α × β} (h : e ∈ dinsert l a b) :
    e = (a, b) ∨ e ∈ l := by
  induction l with
  | nil => simp [dinsert] at h; simp [h]
  | cons hd tl ih =>
    obtain ⟨k, v⟩ := hd
    by_cases hk : k = a
    · subst hk
      simp [dinsert] at h
      rcases h with h | h
      · left; simp [h]
      · right; simp [h]
    · simp [dinsert, hk] at h
      rcases h with h | h
      · right; simp [h]
      · rcases ih h with h2 | h2
        · left; exact h2
        · right; simp [h2]

theorem dlookup_dinsert_isSome {α β : Type} [DecidableEq α]
    (l : List (α × β)) (a c : α) (b : β) :
    (dlookup (dinsert l a b) c).isSome ↔ c = a ∨ (dlookup l c).isSome := by
  by_cases h : c = a
  · subst h
    simp [dlookup_dinsert_self]
  · simp [dlookup_dinsert_ne l a c b h, h]

theorem dlookup_of_nodup_mem {α β : Type} [DecidableEq α]
    {l : List (α × β)} (hnd : (l.map Prod.fst).Nodup) {e : α × β}
    (h : e ∈ l) : dlookup l e.1 = some e.2 := by
  induction l with
  | nil => simp at h
  | cons hd tl ih =>
    obtain ⟨k, v⟩ := hd
    simp only [List.map_cons, List.nodup_cons] at hnd
    rcases List.mem_cons.mp h with h | h
    · subst h
      simp [dlookup]
    · have hne : k ≠ e.1 := by
        intro hk
        apply hnd.1
        rw [hk]
        exact List.mem_map_of_mem Prod.fst h
      simp only [dlookup]
      rw [if_neg hne]
      exact ih hnd.2 h

/-! ### Nearest-index lemmas -/

theorem nearest_index_lt (xs : List Int) (v : Int) (h : xs ≠ []) :
    Valon5007.nearest_index xs v < xs.length := by
  induction xs with
  | nil => simp at h
  | cons x rest ih =>
    cases rest with
    | nil => simp [Valon5007.nearest_index]
    | cons y rest2 =>
      simp only [Valon5007.nearest_index]
      split
      · simp
      · have := ih (by simp)
        simp at this ⊢
        omega

theorem nearest_index_nearest (xs : List Int) (v : Int) (k : Int)
    (hk : k ∈ xs) :
    (xs.getD (Valon5007.nearest_index xs v) 0 - v).natAbs ≤ (k - v).natAbs := by
  induction xs with
  | nil => simp at hk
  | cons x rest ih =>
    cases rest with
    | nil =>
      simp at hk
      simp [Valon5007.nearest_index, hk]
    | cons y rest2 =>
      simp only [Valon5007.nearest_index]
      split
      · next hc =>
        simp only [List.getD_cons_zero]
        rcases List.mem_cons.mp hk with h | h
        · subst h; exact le_refl _
        · refine le_trans ?_ (ih h)
          exact hc
      · next hc =>
        simp only [List.getD_cons_succ]
        rcases List.mem_cons.mp hk with h | h
        · subst h
          exact le_of_lt (Nat.lt_of_not_le hc)
        · exact ih h

/-! ### Dispatch-table and channel-lookup facts -/

theorem getTasks_map_fst (env : Env) :
    (getTasks env).map Prod.fst = getTaskKeys := rfl

theorem setTasks_map_fst (env : Env) :
    (setTasks env).map Prod.fst = setTaskKeys := rfl

theorem synth_one : dlookup synth 1 = some VChan.SYNTH_A := rfl

theorem synth_two : dlookup synth 2 = some VChan.SYNTH_B := rfl

theorem synth_other (sid : Nat) (h1 : sid ≠ 1) (h2 : sid ≠ 2) :
    dlookup synth sid = none := by
  simp [synth, dlookup, Ne.symm h1, Ne.symm h2]

theorem get_p_ok (env : Env) (st : VState) (param : String) (sid : Nat)
    (s : VChan) (task : VChan → Value) (d : List (String × Value))
    (hs : dlookup synth sid = some s)
    (ht : dlookup (getTasks env) param = some task)
    (hd : dlookup st.status sid = some d) :
    Valon5007.get_p env st param sid =
      .ok (task s, ⟨dinsert st.status sid (dinsert d param (task s))⟩) := by
  simp [Valon5007.get_p, hs, ht, hd]

theorem get_p_ok_inv {env : Env} {st : VState} {param : String} {sid : Nat}
    {v : Value} {st2 : VState}
    (h : Valon5007.get_p env st param sid = .ok (v, st2)) :
    ∃ s task d, dlookup synth sid = some s ∧
      dlookup (getTasks env) param = some task ∧
      dlookup st.status sid = some d ∧ v = task s ∧
      st2.status = dinsert st.status sid (dinsert d param v) := by
  unfold Valon5007.get_p at h
  split at h
  · cases h
  · split at h
    · cases h
    · split at h
      · cases h
      · rename_i _ s hs _ task ht _ d hd
        cases h
        exact ⟨s, task, d, hs, ht, hd, rfl, rfl⟩

/-! ### Claim theorems -/

/-- C4: the façade classes `Valon1` and `Valon2` delegate exactly to the
adapter `Valon5007` with their fixed channel number, for `get_p`, `set_p`
and `update_synth_status`. -/
theorem claim_C4_facade_delegation :
    ∀ (env : Env) (st : VState) (param : String) (args : List Value),
      Valon1.get_p env st param = Valon5007.get_p env st param 1 ∧
      Valon1.set_p env st param args = Valon5007.set_p env st param 1 args ∧
      Valon1.update_synth_status env st = Valon5007.update_synth_status env st 1 ∧
      Valon2.get_p env st param = Valon5007.get_p env st param 2 ∧
      Valon2.set_p env st param args = Valon5007.set_p env st param 2 args ∧
      Valon2.update_synth_status env st = Valon5007.update_synth_status env st 2 :=
  fun _ _ _ _ => ⟨rfl, rfl, rfl, rfl, rfl, rfl⟩

/-- C10: the module dictionary `synth` resolves channel 1 to `SYNTH_A` and
channel 2 to `SYNTH_B`; for any other `synth_id` both `get_p` and `set_p`
raise an uncaught `KeyError` with the cache untouched, not the wrapped
"set failed" exception. -/
theorem claim_C10_channel_lookup :
    dlookup synth 1 = some VChan.SYNTH_A ∧
    dlookup synth 2 = some VChan.SYNTH_B ∧
    ∀ (env : Env) (st : VState) (param : String) (args : List Value) (sid : Nat),
      sid ≠ 1 → sid ≠ 2 →
      dlookup synth sid = none ∧
      Valon5007.get_p env st param sid = .error (.keyError, st) ∧
      Valon5007.set_p env st param sid args = .error (.keyError, st) := by
  refine ⟨rfl, rfl, ?_⟩
  intro env st param args sid h1 h2
  have hn := synth_other sid h1 h2
  exact ⟨hn, by simp [Valon5007.get_p, hn], by simp [Valon5007.set_p, hn]⟩

/-- Witness for C10 at `synth_id = 3`. -/
theorem claim_C10_witness :
    dlookup synth 3 = none ∧
    Valon5007.get_p envDefault Valon5007.init_status "frequency" 3 =
      .error (.keyError, Valon5007.init_status) ∧
    Valon5007.set_p envDefault Valon5007.init_status "frequency" 3 [5] =
      .error (.keyError, Valon5007.init_status) :=
  claim_C10_channel_lookup.2.2 envDefault Valon5007.init_status "frequency" [5] 3
    (by decide) (by decide)

/-- C2 counterexample: `"phase lock"` is one of the six advertised
parameter names and a key of `__get_tasks__`, but it is not a key of
`__set_tasks__`, so `set_p("phase lock", ...)` has no vendor set task to
dispatch to. -/
theorem claim_C2_counterexample :
    "phase lock" ∈ getTaskKeys ∧
    dlookup (setTasks envDefault) "phase lock" = none :=
  ⟨by decide, rfl⟩

/-- C2 (amended): all six parameter names are keys of `__get_tasks__`, and
all of them except `"phase lock"` are keys of `__set_tasks__`; for every
get-task key and either channel, `get_p` dispatches successfully to the
corresponding vendor task. -/
theorem claim_C2_amended_dispatch :
    ∀ env : Env,
      (getTasks env).map Prod.fst = getTaskKeys ∧
      (setTasks env).map Prod.fst = setTaskKeys ∧
      (∀ p, p ∈ getTaskKeys ↔ (p ∈ setTaskKeys ∨ p = "phase lock")) ∧
      "phase lock" ∉ setTaskKeys ∧
      (∀ p, p ∈ setTaskKeys → (dlookup (setTasks env) p).isSome) ∧
      (∀ p, p ∈ getTaskKeys → ∀ sid, (sid = 1 ∨ sid = 2) → ∀ st : VState,
        (dlookup st.status sid).isSome →
        ∃ v st2, Valon5007.get_p env st p sid = .ok (v, st2)) := by
  intro env
  refine ⟨rfl, rfl, ?_, by decide, ?_, ?_⟩
  · intro p
    simp only [getTaskKeys, setTaskKeys, List.mem_cons, List.not_mem_nil,
      or_false]
    tauto
  · intro p hp
    apply dlookup_isSome_of_mem_fst
    rw [setTasks_map_fst]
    exact hp
  · intro p hp sid hsid st hst
    obtain ⟨d, hd⟩ := Option.isSome_iff_exists.mp hst
    have hpt : (dlookup (getTasks env) p).isSome := by
      apply dlookup_isSome_of_mem_fst
      rw [getTasks_map_fst]
      exact hp
    obtain ⟨task, ht⟩ := Option.isSome_iff_exists.mp hpt
    rcases hsid with rfl | rfl
    · exact ⟨task VChan.SYNTH_A, _, get_p_ok env st p 1 VChan.SYNTH_A task d
        synth_one ht hd⟩
    · exact ⟨task VChan.SYNTH_B, _, get_p_ok env st p 2 VChan.SYNTH_B task d
        synth_two ht hd⟩

/-- Witness for the amended C2 at `param = "frequency"`, `synth_id = 1`. -/
theorem claim_C2_witness :
    ("frequency" ∈ getTaskKeys) ∧ ((1 : Nat) = 1 ∨ (1 : Nat) = 2) ∧
    (dlookup Valon5007.init_status.status 1).isSome ∧
    ∃ v st2, Valon5007.get_p envDefault Valon5007.init_status "frequency" 1 =
      .ok (v, st2) :=
  ⟨by decide, Or.inl rfl, by decide,
    (claim_C2_amended_dispatch envDefault).2.2.2.2.2 "frequency" (by decide) 1
      (Or.inl rfl) Valon5007.init_status (by decide)⟩

/-- C3: `get_p` returns the value freshly obtained from the vendor get
task for the resolved channel and stores that same value in the cache
entry `status[synth_id][param]`. -/
theorem claim_C3_get_fresh_and_cache :
    ∀ (env : Env) (st : VState) (param : String) (sid : Nat)
      (s : VChan) (task : VChan → Value) (d : List (String × Value)),
      dlookup synth sid = some s →
      dlookup (getTasks env) param = some task →
      dlookup st.status sid = some d →
      ∃ st2, Valon5007.get_p env st param sid = .ok (task s, st2) ∧
        statusLookup st2 sid param = some (task s) := by
  intro env st param sid s task d hs ht hd
  refine ⟨⟨dinsert st.status sid (dinsert d param (task s))⟩,
    get_p_ok env st param sid s task d hs ht hd, ?_⟩
  simp [statusLookup, dlookup_dinsert_self]

/-- Witness for C3 at `param = "frequency"`, `synth_id = 1`. -/
theorem claim_C3_witness :
    dlookup synth 1 = some VChan.SYNTH_A ∧
    dlookup (getTasks envDefault) "frequency" = some envDefault.get_frequency ∧
    dlookup Valon5007.init_status.status 1 = some [] ∧
    ∃ st2, Valon5007.get_p envDefault Valon5007.init_status "frequency" 1 =
        .ok (envDefault.get_frequency VChan.SYNTH_A, st2) ∧
      statusLookup st2 1 "frequency" =
        some (envDefault.get_frequency VChan.SYNTH_A) :=
  ⟨rfl, rfl, rfl,
    claim_C3_get_fresh_and_cache envDefault Valon5007.init_status "frequency" 1
      VChan.SYNTH_A envDefault.get_frequency [] rfl rfl rfl⟩

/-! ### Error-state and inversion lemmas for set_p -/

theorem get_p_error_state {env : Env} {st : VState} {param : String}
    {sid : Nat} {e : Err} {st3 : VState}
    (h : Valon5007.get_p env st param sid = .error (e, st3)) : st3 = st := by
  unfold Valon5007.get_p at h
  split at h
  · cases h; rfl
  · split at h
    · cases h; rfl
    · split at h
      · cases h; rfl
      · cases h

theorem setp_after_error_state {env : Env} {st : VState} {param : String}
    {sid : Nat} {s : VChan} {args : List Value} {e : Err} {st3 : VState}
    (h : Valon5007.setp_after env st param sid s args = .error (e, st3)) :
    st3 = st := by
  unfold Valon5007.setp_after at h
  split at h
  · cases h; rfl
  · split at h
    · cases h; rfl
    · split at h
      · split at h
        · cases h; rfl
        · split at h
          · cases h; rfl
          · cases h
      · cases h; rfl

theorem set_p_error_state {env : Env} {st : VState} {param : String}
    {sid : Nat} {args : List Value} {e : Err} {st3 : VState}
    (h : Valon5007.set_p env st param sid args = .error (e, st3)) :
    st3 = st := by
  unfold Valon5007.set_p at h
  split at h
  · cases h; rfl
  · split at h
    · cases h; rfl
    · exact setp_after_error_state h

theorem set_p_ok_inv {env : Env} {st : VState} {param : String} {sid : Nat}
    {args : List Value} {v : Value} {st2 : VState}
    (h : Valon5007.set_p env st param sid args = .ok (v, st2)) :
    ∃ s args2 task gtask d,
      dlookup synth sid = some s ∧
      Valon5007.corrected_args env param args = .ok args2 ∧
      dlookup (setTasks env) param = some task ∧
      task s args2 = .ok true ∧
      dlookup (getTasks env) param = some gtask ∧
      dlookup st.status sid = some d ∧
      v = gtask s ∧
      st2.status = dinsert st.status sid (dinsert d param v) := by
  unfold Valon5007.set_p at h
  split at h
  · cases h
  · rename_i s hs
    split at h
    · cases h
    · rename_i args2 hc
      unfold Valon5007.setp_after at h
      split at h
      · cases h
      · rename_i _ task htask
        split at h
        · cases h
        · rename_i b hb
          split at h
          · rename_i hbt
            split at h
            · cases h
            · rename_i _ gtask hg
              split at h
              · cases h
              · rename_i _ d hd
                cases h
                subst hbt
                exact ⟨s, args2, task, gtask, d, hs, hc, htask, hb, hg, hd,
                  rfl, rfl⟩
          · cases h

/-- C5: `get_p` modifies only the single cache entry
`status[synth_id][param]`; every other `(channel, parameter)` entry reads
the same before and after, and a raising call leaves the state untouched. -/
theorem claim_C5_get_p_frame :
    ∀ (env : Env) (st : VState) (param : String) (sid : Nat),
      (∀ (v : Value) (st2 : VState),
        Valon5007.get_p env st param sid = .ok (v, st2) →
        ∀ (sid2 : Nat) (param2 : String), ¬(sid2 = sid ∧ param2 = param) →
          statusLookup st2 sid2 param2 = statusLookup st sid2 param2) ∧
      (∀ (e : Err) (st3 : VState),
        Valon5007.get_p env st param sid = .error (e, st3) → st3 = st) := by
  intro env st param sid
  constructor
  · intro v st2 h sid2 param2 hne
    obtain ⟨s, task, d, hs, ht, hd, hv, hst2⟩ := get_p_ok_inv h
    by_cases hsid : sid2 = sid
    · subst hsid
      have hparam : param2 ≠ param := fun hp => hne ⟨rfl, hp⟩
      simp [statusLookup, hst2, dlookup_dinsert_self, hd,
        dlookup_dinsert_ne _ _ _ _ hparam]
    · simp [statusLookup, hst2, dlookup_dinsert_ne _ _ _ _ hsid]
  · intro e st3 h
    exact get_p_error_state h

/-- Witness for C5: reading `"frequency"` on channel 1 leaves the
channel-2 entry for `"frequency"` unchanged. -/
theorem claim_C5_witness :
    statusLookup ⟨[(1, [("frequency", 0)]), (2, [])]⟩ 2 "frequency" =
      statusLookup Valon5007.init_status 2 "frequency" :=
  (claim_C5_get_p_frame envDefault Valon5007.init_status "frequency" 1).1
    0 ⟨[(1, [("frequency", 0)]), (2, [])]⟩ rfl 2 "frequency" (by decide)

/-- C6: for every parameter other than `"rf_level"`, `set_p` forwards the
caller's arguments to the vendor set task exactly as given: the correction
step is the identity and the dispatch runs on the original arguments. -/
theorem claim_C6_args_forwarded_verbatim :
    ∀ (env : Env) (st : VState) (param : String) (sid : Nat) (s : VChan)
      (args : List Value),
      param ≠ "rf_level" →
      Valon5007.corrected_args env param args = .ok args ∧
      (dlookup synth sid = some s →
        Valon5007.set_p env st param sid args =
          Valon5007.setp_after env st param sid s args) := by
  intro env st param sid s args hne
  constructor
  · simp [Valon5007.corrected_args, hne]
  · intro hs
    simp [Valon5007.set_p, hs, Valon5007.corrected_args, hne]

/-- Witness for C6 at `param = "label"`, `synth_id = 1`. -/
theorem claim_C6_witness :
    Valon5007.corrected_args envDefault "label" [7] = .ok [7] ∧
    (dlookup synth 1 = some VChan.SYNTH_A →
      Valon5007.set_p envDefault Valon5007.init_status "label" 1 [7] =
        Valon5007.setp_after envDefault Valon5007.init_status "label" 1
          VChan.SYNTH_A [7]) :=
  claim_C6_args_forwarded_verbatim envDefault Valon5007.init_status "label" 1
    VChan.SYNTH_A [7] (by decide)

/-- C1: for `set_p("rf_level", ...)` the argument actually handed to the
vendor set task is the key of the RF-level table nearest to the requested
value: `set_p` behaves exactly as the dispatch stage applied to `[k]`
where `k` is a table key minimizing the distance to the request. -/
theorem claim_C1_rf_level_nearest :
    ∀ (env : Env) (st : VState) (sid : Nat) (s : VChan) (v : Value)
      (rest : List Value),
      dlookup synth sid = some s →
      env.rfl_rev_table_keys ≠ [] →
      ∃ k, k ∈ env.rfl_rev_table_keys ∧
        (∀ k2 ∈ env.rfl_rev_table_keys, (k - v).natAbs ≤ (k2 - v).natAbs) ∧
        Valon5007.corrected_args env "rf_level" (v :: rest) = .ok [k] ∧
        Valon5007.set_p env st "rf_level" sid (v :: rest) =
          Valon5007.setp_after env st "rf_level" sid s [k] := by
  intro env st sid s v rest hs hne
  obtain ⟨k, hget, hkmem, hnear⟩ :
      ∃ k, (env.rfl_rev_table_keys.insertionSort (· ≤ ·)).get?
          (Valon5007.nearest_index
            (env.rfl_rev_table_keys.insertionSort (· ≤ ·)) v) = some k ∧
        k ∈ env.rfl_rev_table_keys ∧
        ∀ k2 ∈ env.rfl_rev_table_keys,
          (k - v).natAbs ≤ (k2 - v).natAbs := by
    have hperm := List.perm_insertionSort (· ≤ ·) env.rfl_rev_table_keys
    generalize hpk : env.rfl_rev_table_keys.insertionSort (· ≤ ·) = pkeys
    rw [hpk] at hperm
    have hpne : pkeys ≠ [] := by
      intro h0
      apply hne
      rw [h0] at hperm
      exact (List.Perm.nil_eq hperm).symm
    have hlt := nearest_index_lt pkeys v hpne
    refine ⟨pkeys.getD (Valon5007.nearest_index pkeys v) 0, ?_, ?_, ?_⟩
    · rw [List.get?_eq_getElem?, List.getElem?_eq_getElem hlt,
        List.getD_eq_getElem?_getD, List.getElem?_eq_getElem hlt]
      rfl
    · apply hperm.mem_iff.mp
      rw [List.getD_eq_getElem?_getD, List.getElem?_eq_getElem hlt]
      exact List.getElem_mem hlt
    · intro k2 hk2
      exact nearest_index_nearest pkeys v k2 (hperm.mem_iff.mpr hk2)
  have hca : Valon5007.corrected_args env "rf_level" (v :: rest) = .ok [k] := by
    have h0 : Valon5007.corrected_args env "rf_level" (v :: rest) =
        (match (env.rfl_rev_table_keys.insertionSort (· ≤ ·)).get?
            (Valon5007.nearest_index
              (env.rfl_rev_table_keys.insertionSort (· ≤ ·)) v) with
          | none => (.error .indexError : Except Err (List Value))
          | some k2 => .ok [k2]) := rfl
    rw [h0, hget]
  refine ⟨k, hkmem, hnear, hca, ?_⟩
  simp [Valon5007.set_p, hs, hca]

/-- Witness for C1: requesting RF level 1 dBm is corrected to the nearest
table key 2 dBm. -/
theorem claim_C1_witness :
    envDefault.rfl_rev_table_keys ≠ [] ∧
    ∃ k, k ∈ envDefault.rfl_rev_table_keys ∧
      (∀ k2 ∈ envDefault.rfl_rev_table_keys,
        (k - 1).natAbs ≤ (k2 - 1).natAbs) ∧
      Valon5007.corrected_args envDefault "rf_level" [1] = .ok [k] ∧
      Valon5007.set_p envDefault Valon5007.init_status "rf_level" 1 [1] =
        Valon5007.setp_after envDefault Valon5007.init_status "rf_level" 1
          VChan.SYNTH_A [k] :=
  ⟨by decide, claim_C1_rf_level_nearest envDefault Valon5007.init_status 1
    VChan.SYNTH_A 1 [] rfl (by decide)⟩

/-- C7: when the vendor set task reports success, `set_p` re-reads the
parameter through the corresponding get task, stores the re-read value in
the cache, and returns that re-read value. -/
theorem claim_C7_set_success_rereads :
    ∀ (env : Env) (st : VState) (param : String) (sid : Nat) (s : VChan)
      (args args2 : List Value)
      (task : VChan → List Value → Except Unit Bool)
      (gtask : VChan → Value) (d : List (String × Value)),
      dlookup synth sid = some s →
      Valon5007.corrected_args env param args = .ok args2 →
      dlookup (setTasks env) param = some task →
      task s args2 = .ok true →
      dlookup (getTasks env) param = some gtask →
      dlookup st.status sid = some d →
      Valon5007.set_p env st param sid args =
        .ok (gtask s, ⟨dinsert st.status sid (dinsert d param (gtask s))⟩) ∧
      statusLookup ⟨dinsert st.status sid (dinsert d param (gtask s))⟩ sid
        param = some (gtask s) := by
  intro env st param sid s args args2 task gtask d hs hc htask hsucc hg hd
  constructor
  · simp [Valon5007.set_p, hs, hc, Valon5007.setp_after, htask, hsucc, hg, hd]
  · simp [statusLookup, dlookup_dinsert_self]

/-- Witness for C7: a successful `set_p("frequency", 1, 5)` returns the
re-read value 0 (the vendor read), not the requested 5. -/
theorem claim_C7_witness :
    Valon5007.set_p envDefault Valon5007.init_status "frequency" 1 [5] =
      .ok (envDefault.get_frequency VChan.SYNTH_A,
        ⟨dinsert Valon5007.init_status.status 1
          (dinsert [] "frequency" (envDefault.get_frequency VChan.SYNTH_A))⟩) ∧
    statusLookup ⟨dinsert Valon5007.init_status.status 1
        (dinsert [] "frequency" (envDefault.get_frequency VChan.SYNTH_A))⟩ 1
      "frequency" = some (envDefault.get_frequency VChan.SYNTH_A) :=
  claim_C7_set_success_rereads envDefault Valon5007.init_status "frequency" 1
    VChan.SYNTH_A [5] [5] envDefault.set_frequency envDefault.get_frequency []
    rfl rfl rfl rfl rfl rfl

theorem setKeys_sub_getKeys : ∀ p ∈ setTaskKeys, p ∈ getTaskKeys := by decide

/-- C8 counterexample: the claim that `set_p` "fails exactly in two ways"
is false.  Three concrete calls fail in other ways: `synth_id = 3` raises
a plain `KeyError` from the channel lookup; `set_p("rf_level", 1)` with no
value argument raises an `IndexError` from the correction step; and from a
cache without the channel entry the re-read store raises a plain
`KeyError` even though the channel lookup and the argument correction both
succeeded. -/
theorem claim_C8_counterexample :
    (Valon5007.set_p envDefault Valon5007.init_status "frequency" 3 [5] =
        .error (.keyError, Valon5007.init_status) ∧
      Err.keyError ≠ .exnSetFailed "frequency" ∧
      Err.keyError ≠ .obsSettingFailed "frequency") ∧
    (Valon5007.set_p envDefault Valon5007.init_status "rf_level" 1 [] =
        .error (.indexError, Valon5007.init_status) ∧
      Err.indexError ≠ .exnSetFailed "rf_level" ∧
      Err.indexError ≠ .obsSettingFailed "rf_level") ∧
    (dlookup synth 1 = some VChan.SYNTH_A ∧
      Valon5007.corrected_args envDefault "frequency" [5] = .ok [5] ∧
      Valon5007.set_p envDefault ⟨[]⟩ "frequency" 1 [5] =
        .error (.keyError, ⟨[]⟩)) :=
  ⟨⟨rfl, by simp, by simp⟩, ⟨rfl, by simp, by simp⟩, rfl, rfl, rfl⟩

/-- C8 (amended): once the channel lookup succeeds, the argument-correction
step succeeds, and the cache has an entry for the channel (all true after
`__init__` for channels 1 and 2), `set_p` fails exactly in two ways: the
wrapped `Exception(param, "set failed")` iff the `__set_tasks__` lookup or
the vendor set task raises, and the `ObservatoryError(param, "setting
failed")` iff the vendor set task returns a falsy flag; every raise
carries one of those two errors and leaves the state exactly as it was. -/
theorem claim_C8_amended_failure_modes :
    ∀ (env : Env) (st : VState) (param : String) (sid : Nat) (s : VChan)
      (args args2 : List Value),
      dlookup synth sid = some s →
      Valon5007.corrected_args env param args = .ok args2 →
      (dlookup st.status sid).isSome →
      ((Valon5007.set_p env st param sid args =
          .error (.exnSetFailed param, st)) ↔
        (dlookup (setTasks env) param = none ∨
          ∃ task, dlookup (setTasks env) param = some task ∧
            task s args2 = .error ())) ∧
      ((Valon5007.set_p env st param sid args =
          .error (.obsSettingFailed param, st)) ↔
        (∃ task, dlookup (setTasks env) param = some task ∧
          task s args2 = .ok false)) ∧
      (∀ (e : Err) (st3 : VState),
        Valon5007.set_p env st param sid args = .error (e, st3) →
        (e = .exnSetFailed param ∨ e = .obsSettingFailed param) ∧
          st3 = st) := by
  intro env st param sid s args args2 hs hc hsome
  have hsp : Valon5007.set_p env st param sid args =
      Valon5007.setp_after env st param sid s args2 := by
    simp [Valon5007.set_p, hs, hc]
  refine ⟨?_, ?_, ?_⟩
  · rw [hsp]
    cases htask : dlookup (setTasks env) param with
    | none => simp [Valon5007.setp_after, htask]
    | some task =>
      cases hres : task s args2 with
      | error u =>
        cases u
        simp [Valon5007.setp_after, htask, hres]
      | ok b =>
        cases b with
        | false => simp [Valon5007.setp_after, htask, hres]
        | true =>
          cases hg : dlookup (getTasks env) param with
          | none => simp [Valon5007.setp_after, htask, hres, hg]
          | some gtask =>
            cases hd : dlookup st.status sid with
            | none => simp [Valon5007.setp_after, htask, hres, hg, hd]
            | some d => simp [Valon5007.setp_after, htask, hres, hg, hd]
  · rw [hsp]
    cases htask : dlookup (setTasks env) param with
    | none => simp [Valon5007.setp_after, htask]
    | some task =>
      cases hres : task s args2 with
      | error u =>
        cases u
        simp [Valon5007.setp_after, htask, hres]
      | ok b =>
        cases b with
        | false => simp [Valon5007.setp_after, htask, hres]
        | true =>
          cases hg : dlookup (getTasks env) param with
          | none => simp [Valon5007.setp_after, htask, hres, hg]
          | some gtask =>
            cases hd : dlookup st.status sid with
            | none => simp [Valon5007.setp_after, htask, hres, hg, hd]
            | some d => simp [Valon5007.setp_after, htask, hres, hg, hd]
  · intro e st3 h
    rw [hsp] at h
    unfold Valon5007.setp_after at h
    split at h
    · cases h
      exact ⟨Or.inl rfl, rfl⟩
    · rename_i _ task htask
      split at h
      · cases h
        exact ⟨Or.inl rfl, rfl⟩
      · rename_i b hb
        split at h
        · rename_i hbt
          split at h
          · rename_i hg
            have hgs : (dlookup (getTasks env) param).isSome := by
              have hp := mem_fst_of_dlookup htask
              rw [setTasks_map_fst] at hp
              apply dlookup_isSome_of_mem_fst
              rw [getTasks_map_fst]
              exact setKeys_sub_getKeys param hp
            rw [hg] at hgs
            simp at hgs
          · rename_i _ gtask hg
            split at h
            · rename_i hdnone
              rw [hdnone] at hsome
              simp at hsome
            · cases h
        · cases h
          exact ⟨Or.inr rfl, rfl⟩

/-- Witness for the amended C8: with a vendor set task that reports
failure, the instantiated characterization holds at channel 1 on the
fresh cache. -/
theorem claim_C8_witness :
    ((Valon5007.set_p envSetFalse Valon5007.init_status "frequency" 1 [5] =
        .error (.exnSetFailed "frequency", Valon5007.init_status)) ↔
      (dlookup (setTasks envSetFalse) "frequency" = none ∨
        ∃ task, dlookup (setTasks envSetFalse) "frequency" = some task ∧
          task VChan.SYNTH_A [5] = .error ())) ∧
    ((Valon5007.set_p envSetFalse Valon5007.init_status "frequency" 1 [5] =
        .error (.obsSettingFailed "frequency", Valon5007.init_status)) ↔
      (∃ task, dlookup (setTasks envSetFalse) "frequency" = some task ∧
        task VChan.SYNTH_A [5] = .ok false)) ∧
    (∀ (e : Err) (st3 : VState),
      Valon5007.set_p envSetFalse Valon5007.init_status "frequency" 1 [5] =
        .error (e, st3) →
      (e = .exnSetFailed "frequency" ∨ e = .obsSettingFailed "frequency") ∧
        st3 = Valon5007.init_status) :=
  claim_C8_amended_failure_modes envSetFalse Valon5007.init_status "frequency"
    1 VChan.SYNTH_A [5] [5] rfl rfl rfl

/-! ### Invariant lemmas -/

theorem mem_fst_dinsert {α β : Type} [DecidableEq α] {l : List (α × β)}
    {a p : α} {b : β} (h : p ∈ (dinsert l a b).map Prod.fst) :
    p = a ∨ p ∈ l.map Prod.fst := by
  rcases List.mem_map.mp h with ⟨e, he, rfl⟩
  rcases mem_dinsert he with rfl | he2
  · left; rfl
  · right; exact List.mem_map_of_mem _ he2

theorem statusInv_insert {st : VState} (hinv : statusInv st) {sid : Nat}
    {d : List (String × Value)} {param : String} (v : Value)
    (hd : dlookup st.status sid = some d) (hp : param ∈ getTaskKeys) :
    statusInv ⟨dinsert st.status sid (dinsert d param v)⟩ := by
  constructor
  · show (dinsert st.status sid (dinsert d param v)).map Prod.fst = [1, 2]
    rw [map_fst_dinsert_of_mem _ (mem_fst_of_dlookup hd)]
    exact hinv.1
  · intro e he p hpe
    rcases mem_dinsert he with rfl | he2
    · rcases mem_fst_dinsert hpe with rfl | hpd
      · exact hp
      · exact hinv.2 (sid, d) (pair_mem_of_dlookup hd) p hpd
    · exact hinv.2 e he2 p hpe

theorem statusInv_get_p (env : Env) (st : VState) (param : String)
    (sid : Nat) (hinv : statusInv st) :
    statusInv (outState (Valon5007.get_p env st param sid)) := by
  rcases hres : Valon5007.get_p env st param sid with ⟨e, st3⟩ | ⟨v, st2⟩
  · show statusInv st3
    rw [get_p_error_state hres]
    exact hinv
  · obtain ⟨s, task, d, hs, ht, hd, hv, hst2⟩ := get_p_ok_inv hres
    have hp : param ∈ getTaskKeys := by
      have h2 := mem_fst_of_dlookup ht
      rwa [getTasks_map_fst] at h2
    show statusInv st2
    have hrw : st2 = ⟨dinsert st.status sid (dinsert d param v)⟩ := by
      cases st2
      cases hst2
      rfl
    rw [hrw]
    exact statusInv_insert hinv v hd hp

theorem statusInv_set_p (env : Env) (st : VState) (param : String)
    (sid : Nat) (args : List Value) (hinv : statusInv st) :
    statusInv (outState (Valon5007.set_p env st param sid args)) := by
  rcases hres : Valon5007.set_p env st param sid args with ⟨e, st3⟩ | ⟨v, st2⟩
  · show statusInv st3
    rw [set_p_error_state hres]
    exact hinv
  · obtain ⟨s, args2, task, gtask, d, hs, hc, htask, hb, hg, hd, hv, hst2⟩ :=
      set_p_ok_inv hres
    have hp : param ∈ getTaskKeys := by
      have h2 := mem_fst_of_dlookup hg
      rwa [getTasks_map_fst] at h2
    show statusInv st2
    have hrw : st2 = ⟨dinsert st.status sid (dinsert d param v)⟩ := by
      cases st2
      cases hst2
      rfl
    rw [hrw]
    exact statusInv_insert hinv v hd hp

theorem statusInv_runGetAll (env : Env) (keys : List String) :
    ∀ (st : VState) (sid : Nat), statusInv st →
      statusInv (outStateV (Valon5007.runGetAll env st keys sid)) := by
  induction keys with
  | nil => intro st sid hinv; exact hinv
  | cons k ks ih =>
    intro st sid hinv
    rcases hres : Valon5007.get_p env st k sid with ⟨e, st3⟩ | ⟨v, st2⟩
    · have h1 : Valon5007.runGetAll env st (k :: ks) sid = .error (e, st3) := by
        simp [Valon5007.runGetAll, hres]
      rw [h1]
      show statusInv st3
      rw [get_p_error_state hres]
      exact hinv
    · have h1 : Valon5007.runGetAll env st (k :: ks) sid =
          Valon5007.runGetAll env st2 ks sid := by
        simp [Valon5007.runGetAll, hres]
      rw [h1]
      apply ih
      have h2 := statusInv_get_p env st k sid hinv
      rw [hres] at h2
      exact h2

theorem statusInv_update_synth_status (env : Env) (st : VState) (sid : Nat)
    (hinv : statusInv st) :
    statusInv (outState (Valon5007.update_synth_status env st sid)) := by
  have h1 := statusInv_runGetAll env getTaskKeys st sid hinv
  rcases hres : Valon5007.runGetAll env st getTaskKeys sid with ⟨e, st3⟩ | st2
  · rw [hres] at h1
    have h2 : Valon5007.update_synth_status env st sid = .error (e, st3) := by
      simp [Valon5007.update_synth_status, hres]
    rw [h2]
    exact h1
  · rw [hres] at h1
    cases hd : dlookup st2.status sid with
    | none =>
      have h2 : Valon5007.update_synth_status env st sid =
          .error (.keyError, st2) := by
        simp [Valon5007.update_synth_status, hres, hd]
      rw [h2]
      exact h1
    | some d =>
      have h2 : Valon5007.update_synth_status env st sid = .ok (d, st2) := by
        simp [Valon5007.update_synth_status, hres, hd]
      rw [h2]
      exact h1

theorem runGetAll_cover (keys : List String) :
    ∀ (env : Env) (st : VState) (sid : Nat) (s : VChan)
      (d : List (String × Value)),
      dlookup synth sid = some s →
      (∀ p ∈ keys, p ∈ getTaskKeys) →
      dlookup st.status sid = some d →
      ∃ st2 d2, Valon5007.runGetAll env st keys sid = .ok st2 ∧
        dlookup st2.status sid = some d2 ∧
        (∀ p ∈ keys, (dlookup d2 p).isSome) ∧
        (∀ p, (dlookup d p).isSome → (dlookup d2 p).isSome) ∧
        (∀ sid2, sid2 ≠ sid →
          dlookup st2.status sid2 = dlookup st.status sid2) := by
  induction keys with
  | nil =>
    intro env st sid s d hs _ hd
    exact ⟨st, d, rfl, hd, by simp, fun p h => h, fun _ _ => rfl⟩
  | cons k ks ih =>
    intro env st sid s d hs hk hd
    have hkg : k ∈ getTaskKeys := hk k (List.mem_cons_self _ _)
    have hkt : (dlookup (getTasks env) k).isSome := by
      apply dlookup_isSome_of_mem_fst
      rw [getTasks_map_fst]
      exact hkg
    obtain ⟨task, ht⟩ := Option.isSome_iff_exists.mp hkt
    have hgp := get_p_ok env st k sid s task d hs ht hd
    have hd1 : dlookup (dinsert st.status sid (dinsert d k (task s))) sid =
        some (dinsert d k (task s)) := dlookup_dinsert_self _ _ _
    obtain ⟨st2, d2, hrun, hd2, hcov, hmono, hframe⟩ :=
      ih env ⟨dinsert st.status sid (dinsert d k (task s))⟩ sid s
        (dinsert d k (task s)) hs
        (fun p hp => hk p (List.mem_cons_of_mem _ hp)) hd1
    refine ⟨st2, d2, ?_, hd2, ?_, ?_, ?_⟩
    · simp [Valon5007.runGetAll, hgp, hrun]
    · intro p hp
      rcases List.mem_cons.mp hp with rfl | hp2
      · exact hmono p (by simp [dlookup_dinsert_self])
      · exact hcov p hp2
    · intro p hps
      apply hmono
      rw [dlookup_dinsert_isSome]
      exact Or.inr hps
    · intro sid2 hne
      rw [hframe sid2 hne]
      show dlookup (dinsert st.status sid (dinsert d k (task s))) sid2 =
        dlookup st.status sid2
      exact dlookup_dinsert_ne _ _ _ _ hne

theorem statusInv_init_status : statusInv Valon5007.init_status := by
  constructor
  · rfl
  · intro e he p hpe
    rcases List.mem_cons.mp he with rfl | he2
    · simp at hpe
    · rcases List.mem_cons.mp he2 with rfl | he3
      · simp at hpe
      · simp at he3

theorem initState_ok_inv (env : Env) :
    ∃ st0, Valon5007.initState env = .ok st0 ∧ statusInv st0 ∧
      fullStatus st0 := by
  obtain ⟨st1, d1, hrun1, hd1, hcov1, hmono1, hframe1⟩ :=
    runGetAll_cover getTaskKeys env Valon5007.init_status 1 VChan.SYNTH_A []
      synth_one (fun p hp => hp) rfl
  have hup1 : Valon5007.update_synth_status env Valon5007.init_status 1 =
      .ok (d1, st1) := by
    simp [Valon5007.update_synth_status, hrun1, hd1]
  have hd2in : dlookup st1.status 2 = some [] := by
    rw [hframe1 2 (by decide)]
    rfl
  obtain ⟨st2, d2, hrun2, hd2, hcov2, hmono2, hframe2⟩ :=
    runGetAll_cover getTaskKeys env st1 2 VChan.SYNTH_B []
      synth_two (fun p hp => hp) hd2in
  have hup2 : Valon5007.update_synth_status env st1 2 = .ok (d2, st2) := by
    simp [Valon5007.update_synth_status, hrun2, hd2]
  have hinv1 : statusInv st1 := by
    have h0 := statusInv_runGetAll env getTaskKeys Valon5007.init_status 1
      statusInv_init_status
    rw [hrun1] at h0
    exact h0
  have hinv2 : statusInv st2 := by
    have h0 := statusInv_runGetAll env getTaskKeys st1 2 hinv1
    rw [hrun2] at h0
    exact h0
  refine ⟨st2, ?_, hinv2, ?_⟩
  · simp [Valon5007.initState, hup1, hup2]
  · intro e he p hp
    have hnd : (st2.status.map Prod.fst).Nodup := by
      rw [hinv2.1]
      decide
    have he1 : dlookup st2.status e.1 = some e.2 := dlookup_of_nodup_mem hnd he
    have hmem : e.1 ∈ st2.status.map Prod.fst := List.mem_map_of_mem _ he
    rw [hinv2.1] at hmem
    simp at hmem
    have hd1f : dlookup st2.status 1 = some d1 := by
      rw [hframe2 1 (by decide)]
      exact hd1
    rcases hmem with h1e | h1e
    · rw [h1e, hd1f] at he1
      injection he1 with h3
      rw [← h3]
      exact hcov1 p hp
    · rw [h1e, hd2] at he1
      injection he1 with h3
      rw [← h3]
      exact hcov2 p hp

/-- C9: from the state established by `__init__`, every operation
preserves the cache shape — `status` has exactly the channel keys 1 and 2
and only get-task parameter keys — and `__init__` itself succeeds,
establishing the invariant together with an entry for every get-task key
on both channels. -/
theorem claim_C9_cache_invariant :
    ∀ (env : Env) (st : VState) (param : String) (sid : Nat)
      (args : List Value),
      statusInv st →
      statusInv (outState (Valon5007.get_p env st param sid)) ∧
      statusInv (outState (Valon5007.set_p env st param sid args)) ∧
      statusInv (outState (Valon5007.update_synth_status env st sid)) ∧
      ∃ st0, Valon5007.initState env = .ok st0 ∧ statusInv st0 ∧
        fullStatus st0 := by
  intro env st param sid args hinv
  exact ⟨statusInv_get_p env st param sid hinv,
    statusInv_set_p env st param sid args hinv,
    statusInv_update_synth_status env st sid hinv,
    initState_ok_inv env⟩

/-- Witness for C9 at the freshly initialized cache. -/
theorem claim_C9_witness :
    statusInv Valon5007.init_status ∧
    (statusInv (outState
        (Valon5007.get_p envDefault Valon5007.init_status "frequency" 1)) ∧
      statusInv (outState
        (Valon5007.set_p envDefault Valon5007.init_status "frequency" 1 [5])) ∧
      statusInv (outState
        (Valon5007.update_synth_status envDefault Valon5007.init_status 1)) ∧
      ∃ st0, Valon5007.initState envDefault = .ok st0 ∧ statusInv st0 ∧
        fullStatus st0) :=
  ⟨statusInv_init_status,
    claim_C9_cache_invariant envDefault Valon5007.init_status "frequency" 1 [5]
      statusInv_init_status⟩

end Valon
